import Mathlib

/-!
Verification of `paddle/fluid/framework/details/nan_inf_utils_detail.cu`.

The file shallowly embeds the CUDA nan/inf checking core:
a floating-point value is modelled by its IEEE-754 class (`FPVal`),
device buffers are `List`s, a kernel launch is a pure function over the
grid geometry computed by the host code, and the per-device debug-label
cache is explicit state.  Atomic per-block counters of the two properly
synchronized kernels are modelled by counting over the set of threads of
a block; the diagnostic reporter, whose source lacks real barriers, is
modelled as one realizable best-case execution (see its section).
CUDA allocation / memcpy / memset calls are modelled as succeeding.
-/

set_option maxRecDepth 100000

/-- IEEE-754 class of a floating-point value (`float` or `double`): a finite
value with its exact numeric payload, one of the two infinities, or a NaN.
Finite arithmetic is idealized as exact rational arithmetic; the kernels
below only ever form `x - x` and add zeros, where this is exact. -/
inductive FPVal where
  | finite (q : ℚ)
  | posInf
  | negInf
  | nan
deriving DecidableEq

/-- CUDA `isnan`. -/
def FPVal.isnan : FPVal → Bool
  | .nan => true
  | _ => false

/-- CUDA `isinf` (false on NaN). -/
def FPVal.isinf : FPVal → Bool
  | .posInf => true
  | .negInf => true
  | _ => false

/-- IEEE-754 addition at the class level (finite payloads exact). -/
def fpAdd : FPVal → FPVal → FPVal
  | .nan, _ => .nan
  | _, .nan => .nan
  | .posInf, .negInf => .nan
  | .negInf, .posInf => .nan
  | .posInf, _ => .posInf
  | _, .posInf => .posInf
  | .negInf, _ => .negInf
  | _, .negInf => .negInf
  | .finite a, .finite b => .finite (a + b)

/-- IEEE-754 subtraction at the class level (finite payloads exact;
`Inf - Inf = NaN`). -/
def fpSub : FPVal → FPVal → FPVal
  | .nan, _ => .nan
  | _, .nan => .nan
  | .posInf, .posInf => .nan
  | .negInf, .negInf => .nan
  | .posInf, _ => .posInf
  | .negInf, _ => .negInf
  | .finite _, .posInf => .negInf
  | .finite _, .negInf => .posInf
  | .finite a, .finite b => .finite (a - b)

/-- The test `isnan(x) || isinf(x)` applied in both kernels. -/
def fpNanOrInf (v : FPVal) : Bool := v.isnan || v.isinf

/-- Model of `isnan` applied to an `int64_t` element: the overload converts
to `double`, and every `int64_t` converts to a finite double. -/
def int64Isnan (_ : Int) : Bool := false

/-- Model of `isinf` applied to an `int64_t` element: always false. -/
def int64Isinf (_ : Int) : Bool := false

/-- The block size used by both launches, `const size_t threads = 1024;`. -/
def threadsPerBlock : Nat := 1024

/-- The grid size used by both launches,
`std::min(128, (numel + threads - 1) / threads)`. -/
def numBlocks (numel : Nat) : Nat :=
  min 128 ((numel + threadsPerBlock - 1) / threadsPerBlock)

/-- Total number of launched threads, `blocks * threads`; this is also the
stride `blockDim.x * gridDim.x` of the strided loops. -/
def totalThreads (numel : Nat) : Nat := numBlocks numel * threadsPerBlock

/-- Reading `value[i]`, the device buffer at a flat index (all kernel reads
are guarded by `i < numel`, so the default is never observed). -/
def fpGet (buf : List FPVal) (i : Nat) : FPVal := buf.getD i (.finite 0)

/-! ### CountNanInfNumKernel -/

/-- Per-block shared counter `block_nan` of `CountNanInfNumKernel` after all
of the atomic increments of block `b`: the number of threads `t` of the block
whose flat index `i = blockIdx.x * blockDim.x + threadIdx.x` is in range and
whose element satisfies `isnan`.  No striding: each thread tests the single
element at its own flat index. -/
def countBlockNan {α : Type} (isnanF : α → Bool) (d : α) (buf : List α)
    (b : Nat) : Nat :=
  (List.range threadsPerBlock).countP fun t =>
    decide (b * threadsPerBlock + t < buf.length) &&
      isnanF (buf.getD (b * threadsPerBlock + t) d)

/-- Per-block shared counter `block_inf`: threads whose in-range element is
not NaN (the `else if`) and satisfies `isinf`. -/
def countBlockInf {α : Type} (isnanF isinfF : α → Bool) (d : α)
    (buf : List α) (b : Nat) : Nat :=
  (List.range threadsPerBlock).countP fun t =>
    decide (b * threadsPerBlock + t < buf.length) &&
      (!isnanF (buf.getD (b * threadsPerBlock + t) d) &&
        isinfF (buf.getD (b * threadsPerBlock + t) d))

/-- The whole launch of `CountNanInfNumKernel`: thread 0 of every block
atomically merges the block partials into the two zero-initialized global
counters, so the final `(nan_num, inf_num)` is the sum of the per-block
partials over the `numBlocks` blocks of the grid. -/
def CountNanInfNumKernel {α : Type} (isnanF isinfF : α → Bool) (d : α)
    (buf : List α) : Nat × Nat :=
  (((List.range (numBlocks buf.length)).map (countBlockNan isnanF d buf)).sum,
   ((List.range (numBlocks buf.length)).map
      (countBlockInf isnanF isinfF d buf)).sum)

/-! ### CudaTensorCheckNanInf -/

/-- A tensor as seen by `CudaTensorCheckNanInf`: its `proto::VarType` element
type together with its data.  `other` stands for any element type that is
none of FP32, INT64, FP64; only its element count is relevant. -/
inductive TensorData where
  | fp32 (data : List FPVal)
  | int64 (data : List Int)
  | fp64 (data : List FPVal)
  | other (numel : Nat)
deriving DecidableEq

/-- Model of `tensor.numel()`. -/
def TensorData.numel : TensorData → Nat
  | .fp32 data => data.length
  | .int64 data => data.length
  | .fp64 data => data.length
  | .other numel => numel

/-- Whether the element type has a kernel variant in the dispatch of
`CudaTensorCheckNanInf` (FP32, INT64 or FP64). -/
def TensorData.supported : TensorData → Bool
  | .other _ => false
  | _ => true

/-- The fields of the summary line
`"device [%d], op %s, name: %s, there has %u,%u,%u nan,inf,num"`
printed by `CudaTensorCheckNanInf` on a positive verdict. -/
structure NanInfSummary where
  devId : Int
  opType : String
  varName : String
  nanCount : Nat
  infCount : Nat
  numel : Nat
deriving DecidableEq

/-- Observable outcome of one `CudaTensorCheckNanInf` call: the returned
boolean, whether a kernel variant was launched, the host copy of the two
global counters after the stream drain (absent on the unsupported-type
early return, which happens before the copy), the printed summary (absent
when nothing is printed), and whether the call aborted the process (this
function contains no abort site; CUDA API failures are modelled as
succeeding). -/
structure CountCheckOut where
  ret : Bool
  launched : Bool
  counts : Option (Nat × Nat)
  summary : Option NanInfSummary
  fatal : Bool
deriving DecidableEq

/-- Lines 250-261: copy the counters back, synchronize, and if either count
is nonzero print the summary and return `true`, else return `false`. -/
def countCheckFinish (devId : Int) (opType varName : String) (len : Nat)
    (nc : Nat × Nat) : CountCheckOut :=
  if 0 < nc.1 ∨ 0 < nc.2 then
    { ret := true, launched := true, counts := some nc,
      summary := some ⟨devId, opType, varName, nc.1, nc.2, len⟩,
      fatal := false }
  else
    { ret := false, launched := true, counts := some nc, summary := none,
      fatal := false }

/-- Model of `CudaTensorCheckNanInf`: dispatch on the element type in
source order
(FP32, INT64, FP64, otherwise `return false` with no kernel attempted),
launch `CountNanInfNumKernel` on the `numBlocks × threadsPerBlock` grid,
then finish with the copied-back counters. -/
def CudaTensorCheckNanInf (devId : Int) (opType varName : String)
    (t : TensorData) : CountCheckOut :=
  match t with
  | .fp32 data =>
      countCheckFinish devId opType varName data.length
        (CountNanInfNumKernel FPVal.isnan FPVal.isinf (.finite 0) data)
  | .int64 data =>
      countCheckFinish devId opType varName data.length
        (CountNanInfNumKernel int64Isnan int64Isinf 0 data)
  | .fp64 data =>
      countCheckFinish devId opType varName data.length
        (CountNanInfNumKernel FPVal.isnan FPVal.isinf (.finite 0) data)
  | .other _ =>
      { ret := false, launched := false, counts := none, summary := none,
        fatal := false }

example :
    (CudaTensorCheckNanInf 0 "add" "y"
      (.fp32 [.finite 1, .finite 2, .nan, .finite 4])).ret = true := by
  decide

example :
    (CudaTensorCheckNanInf 0 "add" "y"
      (.fp32 [.finite 1, .finite 2, .nan, .finite 4])).counts
      = some (1, 0) := by
  decide

/-! ### CheckNanInfKernel -/

/-- The strided accumulation loop of `CheckNanInfKernel`,
`for (i = tid; i < numel; i += stride) sum += (value[i] - value[i]);`,
translated with a fuel argument bounding the remaining iterations (the loop
advances `i` by `stride ≥ 1` each step, so `buf.length` fuel always
suffices). -/
def checkNanInfLoop (buf : List FPVal) (stride : Nat) :
    Nat → Nat → FPVal → FPVal
  | 0, _, sum => sum
  | fuel + 1, i, sum =>
      if i < buf.length then
        checkNanInfLoop buf stride fuel (i + stride)
          (fpAdd sum (fpSub (fpGet buf i) (fpGet buf i)))
      else sum

/-- The accumulated `sum` of the thread with flat id `tid`
(`tid = threadIdx.x + blockIdx.x * blockDim.x`), starting from
`static_cast<T>(0.0)` and striding by `blockDim.x * gridDim.x`. -/
def checkNanInfThreadSum (buf : List FPVal) (tid : Nat) : FPVal :=
  checkNanInfLoop buf (totalThreads buf.length) buf.length tid (.finite 0)

/-- The shared `has_nan_inf` flag of block `b` after the `__syncthreads()`:
true iff some thread of the block found `isnan(sum) || isinf(sum)` (the
benign volatile race is an any-true reduction). -/
def checkBlockHasNanInf (buf : List FPVal) (b : Nat) : Bool :=
  (List.range threadsPerBlock).any fun t =>
    fpNanOrInf (checkNanInfThreadSum buf (t + b * threadsPerBlock))

/-- The observable verdict of `CheckNanInfKernel` for a whole launch:
whether at least one block has its `has_nan_inf` flag set, i.e. whether at least one
block skips the early `return` and enters `PrintNanInfKernel` (the
report/abort path).  Blocks decide independently. -/
def CheckNanInfKernel (buf : List FPVal) : Bool :=
  (List.range (numBlocks buf.length)).any fun b => checkBlockHasNanInf buf b

example : CheckNanInfKernel [.finite 1, .nan] = true := by decide

example : CheckNanInfKernel [.finite 1, .finite 2] = false := by decide

example : CheckNanInfKernel [] = false := by decide

/-! ### The per-device debug-label cache and the visitor -/

/-- Map lookup, `std::unordered_map<std::string, AllocationPtr>::find`, as
association list lookup; the value is the device pointer of the uploaded label. -/
def lookupLabel : List (String × Nat) → String → Option Nat
  | [], _ => none
  | (k, p) :: rest, key => if key = k then some p else lookupLabel rest key

/-- The lazily initialized per-device state: `multi_op_var2gpu_str()`, one
map per visible device (the per-device mutexes serialize access and are not
otherwise modelled), plus an allocator counter producing fresh device
pointers. -/
structure LabelCache where
  tables : List (List (String × Nat))
  nextPtr : Nat
deriving DecidableEq

/-- Whether the critical section took the insert branch (allocate, emplace,
async host-to-device upload) or the get branch (return the cached
pointer). -/
inductive CacheOp where
  | insert
  | get
deriving DecidableEq

/-- Lines 134-165: under the mutex of the device, look `op_var` up in the
map of that device; if absent, allocate a device buffer, emplace it and upload
the label (one `cudaMemcpyAsync`); if present, return the cached pointer.
Returns the new state, which branch ran, and the device pointer. -/
def getOrCreateLabelPtr (st : LabelCache) (dev : Nat) (label : String) :
    LabelCache × CacheOp × Nat :=
  match lookupLabel (st.tables.getD dev []) label with
  | some p => (st, .get, p)
  | none =>
      (⟨st.tables.set dev ((label, st.nextPtr) :: st.tables.getD dev []),
        st.nextPtr + 1⟩,
       .insert, st.nextPtr)

/-- The debug label built at line 131:
`"[op=" + op_type_ + "] [tensor=" + var_name_ + "]"`. -/
def opVarLabel (opType varName : String) : String :=
  "[op=" ++ opType ++ "] [tensor=" ++ varName ++ "]"

/-- Observable outcome of a successful
`TensorCheckerVisitor<CUDADeviceContext>::apply`: the cache state after the
critical section, which branch the critical section took, the device
pointer of the label, the launch geometry, the `print_num` passed to the kernel,
and whether some block of the launched `CheckNanInfKernel` enters the
report path. -/
structure ApplyOut where
  cache : LabelCache
  cacheOp : CacheOp
  labelPtr : Nat
  blocks : Nat
  threads : Nat
  printNum : Nat
  reportEntered : Bool
deriving DecidableEq

/-- Lines 119-173, `TensorCheckerVisitor<CUDADeviceContext>::apply` for a
floating-point tensor: enforce `dev_id >= 0 && dev_id < dev_count` (on
failure, an `OutOfRange` error whose message is
`"GPU dev_id must >=0 and < dev_count=%d"` formatted with the device
count), run the label-cache critical section, then launch
`CheckNanInfKernel` with `print_num = 3` on the
`numBlocks × threadsPerBlock` grid. -/
def tensorCheckerApply (st : LabelCache) (devId : Int)
    (opType varName : String) (buf : List FPVal) : Except String ApplyOut :=
  if 0 ≤ devId ∧ devId < (st.tables.length : Int) then
    let r := getOrCreateLabelPtr st devId.toNat (opVarLabel opType varName)
    .ok { cache := r.1, cacheOp := r.2.1, labelPtr := r.2.2,
          blocks := numBlocks buf.length, threads := threadsPerBlock,
          printNum := 3, reportEntered := CheckNanInfKernel buf }
  else
    .error ("GPU dev_id must >=0 and < dev_count="
      ++ toString st.tables.length)

/-! ### PrintNanInfKernel

`PrintNanInfKernel` re-scans the elements of the block with three shared
counters `nan_count, inf_count, num_count`; each visit increments the
counter of its class with `atomicAdd` (which returns the OLD value
`count`) and prints the line of the element when `count < print_num`.
Both barrier statements of this kernel are written `__syncthreads;`
without parentheses (source lines 66 and 83) — no-op expression
statements, not calls, unlike the real `__syncthreads()` calls of the
other two kernels — so nothing orders the zero-initialization by thread 0
before the increments of the other threads, nor the final tally read
after them.  The model below is therefore ONE realizable execution, the
best case: initialization first, then the visits of the block serialized
in ascending flat-index order.  It exhibits output the kernel can
produce; it does not bound the racy kernel. -/

/-- The block-shared counters and the list of flat indices whose element
line has been printed, in print order. -/
structure PrintSimState where
  nanCount : Nat
  infCount : Nat
  numCount : Nat
  printedIdx : List Nat
deriving DecidableEq

/-- One iteration of the loop body of `PrintNanInfKernel` at flat index
`i`:
classify `value[i]` by the `isnan` / `else isinf` / `else` chain, fetch-add
the counter of the class, and print iff the fetched old value is below
`print_num`. -/
def printNanInfStep (buf : List FPVal) (printNum : Nat) (s : PrintSimState)
    (i : Nat) : PrintSimState :=
  if (fpGet buf i).isnan then
    { s with nanCount := s.nanCount + 1,
             printedIdx :=
               if s.nanCount < printNum then s.printedIdx ++ [i]
               else s.printedIdx }
  else if (fpGet buf i).isinf then
    { s with infCount := s.infCount + 1,
             printedIdx :=
               if s.infCount < printNum then s.printedIdx ++ [i]
               else s.printedIdx }
  else
    { s with numCount := s.numCount + 1,
             printedIdx :=
               if s.numCount < printNum then s.printedIdx ++ [i]
               else s.printedIdx }

/-- The flat indices visited by the threads of block `b`: thread
`tid = threadIdx.x + blockIdx.x * blockDim.x` strides by
`blockDim.x * gridDim.x`, so block `b` owns exactly the in-range indices
`i` with `i % stride` in `[b * blockDim.x, (b+1) * blockDim.x)`, listed in
ascending order. -/
def blockVisitedIdx (numel stride b : Nat) : List Nat :=
  (List.range numel).filter fun i =>
    decide (b * threadsPerBlock ≤ i % stride) &&
      decide (i % stride < (b + 1) * threadsPerBlock)

/-- Model of `PrintNanInfKernel` for block `b` in the best-case execution
described above: fold the loop body over the visited indices of the block
from zero-initialized counters.  After the loop, thread 0 prints the
aggregate tally line `"In block %d, there has %u,%u,%u nan,inf,num"` and
raises the fatal `PADDLE_ENFORCE(false, ...)`. -/
def PrintNanInfKernel (buf : List FPVal) (printNum b : Nat) :
    PrintSimState :=
  (blockVisitedIdx buf.length (totalThreads buf.length) b).foldl
    (printNanInfStep buf printNum) ⟨0, 0, 0, []⟩

example :
    (PrintNanInfKernel [.finite 1, .nan] 3 0).printedIdx = [0, 1] := by
  decide

example :
    (PrintNanInfKernel
      [.nan, .nan, .nan, .nan, .posInf, .finite 5] 3 0).printedIdx
      = [0, 1, 2, 4, 5] := by
  decide

/-! ### Lemmas about the boolean scan -/

/-- Whether the strided loop starting at `i` meets some nan/inf element
(same recursion structure as `checkNanInfLoop`). -/
def anyBadFrom (buf : List FPVal) (stride : Nat) : Nat → Nat → Bool
  | 0, _ => false
  | fuel + 1, i =>
      if i < buf.length then
        fpNanOrInf (fpGet buf i) || anyBadFrom buf stride fuel (i + stride)
      else false

lemma fpNanOrInf_step (s v : FPVal) :
    fpNanOrInf (fpAdd s (fpSub v v)) = (fpNanOrInf s || fpNanOrInf v) := by
  cases s <;> cases v <;>
    simp [fpAdd, fpSub, fpNanOrInf, FPVal.isnan, FPVal.isinf]

lemma checkNanInfLoop_bad (buf : List FPVal) (stride : Nat) :
    ∀ fuel i sum,
      fpNanOrInf (checkNanInfLoop buf stride fuel i sum)
        = (fpNanOrInf sum || anyBadFrom buf stride fuel i) := by
  intro fuel
  induction fuel with
  | zero => intro i sum; simp [checkNanInfLoop, anyBadFrom]
  | succ fuel ih =>
      intro i sum
      by_cases h : i < buf.length
      · simp only [checkNanInfLoop, anyBadFrom, if_pos h, ih,
          fpNanOrInf_step, Bool.or_assoc]
      · simp [checkNanInfLoop, anyBadFrom, if_neg h]

lemma anyBadFrom_iff (buf : List FPVal) (stride : Nat) :
    ∀ fuel i,
      anyBadFrom buf stride fuel i = true ↔
        ∃ k, k < fuel ∧ i + k * stride < buf.length ∧
          fpNanOrInf (fpGet buf (i + k * stride)) = true := by
  intro fuel
  induction fuel with
  | zero => intro i; simp [anyBadFrom]
  | succ fuel ih =>
      intro i
      by_cases h : i < buf.length
      · simp only [anyBadFrom, if_pos h, Bool.or_eq_true, ih]
        constructor
        · rintro (hbad | ⟨k, hk, hlt, hbad⟩)
          · exact ⟨0, Nat.succ_pos _, by simpa using h, by simpa using hbad⟩
          · refine ⟨k + 1, by omega, ?_, ?_⟩
            · have : i + (k + 1) * stride = i + stride + k * stride := by ring
              omega
            · have : i + (k + 1) * stride = i + stride + k * stride := by
                ring
              rw [this]; exact hbad
        · rintro ⟨k, hk, hlt, hbad⟩
          cases k with
          | zero => left; simpa using hbad
          | succ k =>
              right
              refine ⟨k, by omega, ?_, ?_⟩
              · have : i + (k + 1) * stride = i + stride + k * stride := by
                  ring
                omega
              · have : i + (k + 1) * stride = i + stride + k * stride := by
                  ring
                rw [this] at hbad; exact hbad
      · simp only [anyBadFrom, if_neg h]
        constructor
        · intro hfalse; exact absurd hfalse (by simp)
        · rintro ⟨k, _, hlt, _⟩
          exact absurd hlt (by omega)

/-- The index set visited by thread `tid`: the arithmetic progression
`tid, tid + stride, ...` restricted to the buffer. -/
def visitedBy (tid stride i : Nat) : Prop := ∃ k, i = tid + k * stride

lemma checkNanInfThreadSum_bad (buf : List FPVal) (tid : Nat)
    (hs : 0 < totalThreads buf.length) :
    fpNanOrInf (checkNanInfThreadSum buf tid) = true ↔
      ∃ i, i < buf.length ∧ visitedBy tid (totalThreads buf.length) i ∧
        fpNanOrInf (fpGet buf i) = true := by
  rw [checkNanInfThreadSum, checkNanInfLoop_bad]
  simp only [fpNanOrInf, FPVal.isnan, FPVal.isinf, Bool.false_or]
  rw [anyBadFrom_iff buf _]
  constructor
  · rintro ⟨k, hk, hlt, hbad⟩
    exact ⟨tid + k * totalThreads buf.length, hlt, ⟨k, rfl⟩, hbad⟩
  · rintro ⟨i, hlt, ⟨k, rfl⟩, hbad⟩
    refine ⟨k, ?_, hlt, hbad⟩
    have hk : k ≤ k * totalThreads buf.length := Nat.le_mul_of_pos_right _ hs
    omega

lemma totalThreads_pos (numel : Nat) (h : 0 < numel) :
    0 < totalThreads numel := by
  have h1 : 0 < (numel + threadsPerBlock - 1) / threadsPerBlock :=
    Nat.div_pos (by simp only [threadsPerBlock]; omega)
      (by simp [threadsPerBlock])
  have : 0 < numBlocks numel := by
    simp only [numBlocks]; omega
  simp only [totalThreads, threadsPerBlock]
  omega

/-- Exact coverage: the blocks and threads of the launch jointly visit
the in-range flat indices. -/
lemma checkNanInfKernel_iff (buf : List FPVal) :
    CheckNanInfKernel buf = true ↔
      ∃ i, i < buf.length ∧ fpNanOrInf (fpGet buf i) = true := by
  rcases Nat.eq_zero_or_pos buf.length with h0 | hpos
  · constructor
    · intro h
      rw [CheckNanInfKernel, List.any_eq_true] at h
      obtain ⟨b, hb, hflag⟩ := h
      rw [checkBlockHasNanInf, List.any_eq_true] at hflag
      obtain ⟨t, _, hbad⟩ := hflag
      rw [checkNanInfThreadSum, h0] at hbad
      simp [checkNanInfLoop, fpNanOrInf, FPVal.isnan, FPVal.isinf] at hbad
    · rintro ⟨i, hlt, _⟩; omega
  · have hs : 0 < totalThreads buf.length := totalThreads_pos _ hpos
    rw [CheckNanInfKernel, List.any_eq_true]
    constructor
    · rintro ⟨b, _, hflag⟩
      rw [checkBlockHasNanInf, List.any_eq_true] at hflag
      obtain ⟨t, _, hbad⟩ := hflag
      rw [checkNanInfThreadSum_bad _ _ hs] at hbad
      obtain ⟨i, hlt, _, hib⟩ := hbad
      exact ⟨i, hlt, hib⟩
    · rintro ⟨i, hlt, hbad⟩
      -- the unique thread owning index `i`
      set stride := totalThreads buf.length with hstride
      have htid : i % stride < stride := Nat.mod_lt _ hs
      refine ⟨i % stride / threadsPerBlock, ?_, ?_⟩
      · rw [List.mem_range]
        have : stride = numBlocks buf.length * threadsPerBlock := rfl
        exact Nat.div_lt_of_lt_mul (by rw [Nat.mul_comm]; omega)
      · rw [checkBlockHasNanInf, List.any_eq_true]
        refine ⟨i % stride % threadsPerBlock, ?_, ?_⟩
        · rw [List.mem_range]
          exact Nat.mod_lt _ (by simp [threadsPerBlock])
        · have htid_eq :
              i % stride % threadsPerBlock
                + i % stride / threadsPerBlock * threadsPerBlock
                = i % stride := by
            rw [Nat.mul_comm]
            exact Nat.mod_add_div _ _
          rw [htid_eq, checkNanInfThreadSum_bad _ _ hs]
          refine ⟨i, hlt, ⟨i / stride, ?_⟩, hbad⟩
          rw [Nat.mul_comm]
          exact (Nat.mod_add_div i stride).symm

/-! ### Claim theorems: the boolean scan -/

/-- Claim C2: the detection of `CheckNanInfKernel` is a logical OR over
elements.  Each finite element contributes exactly `0` to the running sum
of `value[i] - value[i]`; the accumulated sum of a thread is
NaN-or-infinite iff
at least one element it visited is NaN or an infinity; and the cooperative
failure/report path is entered (by some block) iff the buffer contains at
least one NaN or infinite element. -/
theorem checkNanInfKernel_scan_is_logical_or (buf : List FPVal) :
    (∀ q : ℚ, fpSub (.finite q) (.finite q) = .finite 0) ∧
    (∀ tid, tid < totalThreads buf.length →
      (fpNanOrInf (checkNanInfThreadSum buf tid) = true ↔
        ∃ i, i < buf.length ∧ visitedBy tid (totalThreads buf.length) i ∧
          fpNanOrInf (fpGet buf i) = true)) ∧
    (CheckNanInfKernel buf = true ↔
      ∃ i, i < buf.length ∧ fpNanOrInf (fpGet buf i) = true) := by
  refine ⟨?_, ?_, checkNanInfKernel_iff buf⟩
  · intro q; simp [fpSub]
  · intro tid htid
    exact checkNanInfThreadSum_bad buf tid (by omega)

/-- Witness for C2 at the concrete buffer `[1.0, NaN]` and thread 1. -/
theorem checkNanInfKernel_scan_is_logical_or_witness :
    1 < totalThreads [FPVal.finite 1, FPVal.nan].length ∧
    (fpNanOrInf (checkNanInfThreadSum [FPVal.finite 1, FPVal.nan] 1)
        = true ↔
      ∃ i, i < [FPVal.finite 1, FPVal.nan].length ∧
        visitedBy 1 (totalThreads [FPVal.finite 1, FPVal.nan].length) i ∧
        fpNanOrInf (fpGet [FPVal.finite 1, FPVal.nan] i) = true) :=
  ⟨by decide,
   (checkNanInfKernel_scan_is_logical_or [FPVal.finite 1, FPVal.nan]).2.1 1
     (by decide)⟩

/-! ### Lemmas about the count kernel -/

lemma countBlockNan_int64 (data : List Int) (b : Nat) :
    countBlockNan int64Isnan 0 data b = 0 := by
  simp [countBlockNan, int64Isnan]

lemma countBlockInf_int64 (data : List Int) (b : Nat) :
    countBlockInf int64Isnan int64Isinf 0 data b = 0 := by
  simp [countBlockInf, int64Isinf]

lemma countNanInfNumKernel_int64 (data : List Int) :
    CountNanInfNumKernel int64Isnan int64Isinf 0 data = (0, 0) := by
  unfold CountNanInfNumKernel
  refine Prod.ext ?_ ?_ <;> simp only
  · refine List.sum_eq_zero ?_
    intro x hx
    obtain ⟨b, _, rfl⟩ := List.mem_map.mp hx
    exact countBlockNan_int64 data b
  · refine List.sum_eq_zero ?_
    intro x hx
    obtain ⟨b, _, rfl⟩ := List.mem_map.mp hx
    exact countBlockInf_int64 data b

/-! ### Claim theorems: trivial buffers -/

/-- Claim C8: a buffer of length 0 is clean for both checks.  The grid for
`numel = 0` has 0 blocks, so the boolean scan launches no thread and never
enters the report path, and `CudaTensorCheckNanInf` returns `false` with
both counters 0 (and prints nothing) for each supported element type. -/
theorem emptyBuffer_is_clean (devId : Int) (opType varName : String) :
    totalThreads 0 = 0 ∧
    CheckNanInfKernel ([] : List FPVal) = false ∧
    CudaTensorCheckNanInf devId opType varName (.fp32 []) =
      { ret := false, launched := true, counts := some (0, 0),
        summary := none, fatal := false } ∧
    CudaTensorCheckNanInf devId opType varName (.int64 []) =
      { ret := false, launched := true, counts := some (0, 0),
        summary := none, fatal := false } ∧
    CudaTensorCheckNanInf devId opType varName (.fp64 []) =
      { ret := false, launched := true, counts := some (0, 0),
        summary := none, fatal := false } := by
  refine ⟨by decide, by decide, ?_, ?_, ?_⟩ <;> rfl

/-- Claim C10: for every INT64 buffer no element is classified as NaN or
infinite, so `CudaTensorCheckNanInf` returns `false` with both counters 0
and prints nothing. -/
theorem int64_never_nan_inf (devId : Int) (opType varName : String)
    (data : List Int) :
    CudaTensorCheckNanInf devId opType varName (.int64 data) =
      { ret := false, launched := true, counts := some (0, 0),
        summary := none, fatal := false } := by
  simp [CudaTensorCheckNanInf, countNanInfNumKernel_int64, countCheckFinish]

/-! ### Claim C3: dependence on the first `min(numel, 131072)` elements -/

lemma numBlocks_le_128 (numel : Nat) : numBlocks numel ≤ 128 :=
  Nat.min_le_left _ _

lemma totalThreads_le (numel : Nat) : totalThreads numel ≤ 131072 := by
  have h := numBlocks_le_128 numel
  simp only [totalThreads, threadsPerBlock]
  omega

lemma countBlockNan_congr {α : Type} (isnanF : α → Bool) (d : α)
    (d1 d2 : List α) (hlen : d1.length = d2.length)
    (hag : ∀ i, i < min d1.length 131072 → d1.getD i d = d2.getD i d)
    (b : Nat) (hb : b < 128) :
    countBlockNan isnanF d d1 b = countBlockNan isnanF d d2 b := by
  unfold countBlockNan
  refine List.countP_congr ?_
  intro t ht
  rw [List.mem_range] at ht
  by_cases h : b * threadsPerBlock + t < d1.length
  · have hidx : b * threadsPerBlock + t < min d1.length 131072 := by
      simp only [threadsPerBlock] at *
      omega
    rw [hag _ hidx, hlen]
  · rw [decide_eq_false h, decide_eq_false (by omega)]
    simp

lemma countBlockInf_congr {α : Type} (isnanF isinfF : α → Bool) (d : α)
    (d1 d2 : List α) (hlen : d1.length = d2.length)
    (hag : ∀ i, i < min d1.length 131072 → d1.getD i d = d2.getD i d)
    (b : Nat) (hb : b < 128) :
    countBlockInf isnanF isinfF d d1 b
      = countBlockInf isnanF isinfF d d2 b := by
  unfold countBlockInf
  refine List.countP_congr ?_
  intro t ht
  rw [List.mem_range] at ht
  by_cases h : b * threadsPerBlock + t < d1.length
  · have hidx : b * threadsPerBlock + t < min d1.length 131072 := by
      simp only [threadsPerBlock] at *
      omega
    rw [hag _ hidx, hlen]
  · rw [decide_eq_false h, decide_eq_false (by omega)]
    simp

lemma countNanInfNumKernel_congr {α : Type} (isnanF isinfF : α → Bool)
    (d : α) (d1 d2 : List α) (hlen : d1.length = d2.length)
    (hag : ∀ i, i < min d1.length 131072 → d1.getD i d = d2.getD i d) :
    CountNanInfNumKernel isnanF isinfF d d1
      = CountNanInfNumKernel isnanF isinfF d d2 := by
  unfold CountNanInfNumKernel
  rw [hlen]
  refine Prod.ext ?_ ?_ <;> simp only
  · congr 1
    refine List.map_congr_left ?_
    intro b hb
    rw [List.mem_range] at hb
    exact countBlockNan_congr isnanF d d1 d2 hlen hag b
      (by have := numBlocks_le_128 d2.length; omega)
  · congr 1
    refine List.map_congr_left ?_
    intro b hb
    rw [List.mem_range] at hb
    exact countBlockInf_congr isnanF isinfF d d1 d2 hlen hag b
      (by have := numBlocks_le_128 d2.length; omega)

/-- Elementwise agreement of two same-typed tensors on all flat indices
below `n` (used to state that the count check never reads further). -/
def TensorData.agreeBelow : TensorData → TensorData → Nat → Prop
  | .fp32 d1, .fp32 d2, n =>
      ∀ i, i < n → d1.getD i (.finite 0) = d2.getD i (.finite 0)
  | .int64 d1, .int64 d2, n => ∀ i, i < n → d1.getD i 0 = d2.getD i 0
  | .fp64 d1, .fp64 d2, n =>
      ∀ i, i < n → d1.getD i (.finite 0) = d2.getD i (.finite 0)
  | .other _, .other _, _ => True
  | _, _, _ => False

/-- Claim C3: the count kernel is launched with at most 128 blocks of 1024
threads and each thread tests only the element at its own flat index, so
`CudaTensorCheckNanInf` depends only on the elements at flat index below
`min(numel, 131072)`: two equal-length same-typed tensors agreeing there
produce identical outputs (counts, summary and boolean verdict). -/
theorem cudaTensorCheckNanInf_reads_only_first_131072 (devId : Int)
    (opType varName : String) (t1 t2 : TensorData)
    (hlen : t1.numel = t2.numel)
    (hag : TensorData.agreeBelow t1 t2 (min t1.numel 131072)) :
    CudaTensorCheckNanInf devId opType varName t1
      = CudaTensorCheckNanInf devId opType varName t2 ∧
    numBlocks t1.numel ≤ 128 ∧ threadsPerBlock = 1024 := by
  refine ⟨?_, numBlocks_le_128 _, rfl⟩
  cases t1 <;> cases t2 <;>
    simp only [TensorData.agreeBelow] at hag
  case fp32.fp32 d1 d2 =>
    simp only [TensorData.numel] at hlen
    simp only [CudaTensorCheckNanInf, hlen,
      countNanInfNumKernel_congr FPVal.isnan FPVal.isinf (.finite 0) d1 d2
        hlen (by simpa [TensorData.numel] using hag)]
  case int64.int64 d1 d2 =>
    simp only [TensorData.numel] at hlen
    simp only [CudaTensorCheckNanInf, hlen,
      countNanInfNumKernel_congr int64Isnan int64Isinf 0 d1 d2 hlen
        (by simpa [TensorData.numel] using hag)]
  case fp64.fp64 d1 d2 =>
    simp only [TensorData.numel] at hlen
    simp only [CudaTensorCheckNanInf, hlen,
      countNanInfNumKernel_congr FPVal.isnan FPVal.isinf (.finite 0) d1 d2
        hlen (by simpa [TensorData.numel] using hag)]
  case other.other n1 n2 => rfl

/-- Witness for C3 at two concrete one-element FP32 tensors. -/
theorem cudaTensorCheckNanInf_reads_only_first_131072_witness :
    CudaTensorCheckNanInf 0 "add" "y" (.fp32 [.nan])
      = CudaTensorCheckNanInf 0 "add" "y" (.fp32 [.nan]) ∧
    numBlocks (TensorData.fp32 [.nan]).numel ≤ 128 ∧
    threadsPerBlock = 1024 :=
  cudaTensorCheckNanInf_reads_only_first_131072 0 "add" "y"
    (.fp32 [.nan]) (.fp32 [.nan]) rfl (fun _ _ => rfl)

/-! ### Claim C1: the grid cap loses elements beyond flat index 131071 -/

/-- An FP32 buffer one element longer than the maximal grid: 131072 zeros
followed by a NaN at flat index 131072. -/
def tailNanBuf : List FPVal :=
  List.replicate 131072 (FPVal.finite 0) ++ [FPVal.nan]

lemma tailNanBuf_length : tailNanBuf.length = 131073 := by
  rw [tailNanBuf, List.length_append, List.length_replicate]
  rfl

lemma tailNanBuf_getD_lt (i : Nat) (h : i < 131072) :
    tailNanBuf.getD i (.finite 0) = .finite 0 := by
  have hlen : i < (List.replicate 131072 (FPVal.finite 0)).length := by
    rw [List.length_replicate]; exact h
  rw [tailNanBuf, List.getD_append _ _ _ _ hlen,
    List.getD_eq_getElem _ _ hlen, List.getElem_replicate]

lemma countBlockNan_tailNanBuf (b : Nat) (hb : b < 128) :
    countBlockNan FPVal.isnan (.finite 0) tailNanBuf b = 0 := by
  unfold countBlockNan
  refine List.countP_eq_zero.mpr ?_
  intro t ht
  rw [List.mem_range] at ht
  have hidx : b * threadsPerBlock + t < 131072 := by
    simp only [threadsPerBlock] at *
    omega
  rw [tailNanBuf_getD_lt _ hidx]
  simp [FPVal.isnan]

lemma countBlockInf_tailNanBuf (b : Nat) (hb : b < 128) :
    countBlockInf FPVal.isnan FPVal.isinf (.finite 0) tailNanBuf b = 0 := by
  unfold countBlockInf
  refine List.countP_eq_zero.mpr ?_
  intro t ht
  rw [List.mem_range] at ht
  have hidx : b * threadsPerBlock + t < 131072 := by
    simp only [threadsPerBlock] at *
    omega
  rw [tailNanBuf_getD_lt _ hidx]
  simp [FPVal.isinf]

lemma countNanInfNumKernel_tailNanBuf :
    CountNanInfNumKernel FPVal.isnan FPVal.isinf (.finite 0) tailNanBuf
      = (0, 0) := by
  unfold CountNanInfNumKernel
  refine Prod.ext ?_ ?_ <;> simp only
  · refine List.sum_eq_zero ?_
    intro x hx
    obtain ⟨b, hb, rfl⟩ := List.mem_map.mp hx
    rw [List.mem_range] at hb
    exact countBlockNan_tailNanBuf b
      (by have := numBlocks_le_128 tailNanBuf.length; omega)
  · refine List.sum_eq_zero ?_
    intro x hx
    obtain ⟨b, hb, rfl⟩ := List.mem_map.mp hx
    rw [List.mem_range] at hb
    exact countBlockInf_tailNanBuf b
      (by have := numBlocks_le_128 tailNanBuf.length; omega)

/-- Claim C1 fails on the code: on an FP32 buffer of 131073 elements whose
single NaN sits at flat index 131072, `CudaTensorCheckNanInf` returns
`false` with `nan_count = 0` and `inf_count = 0` — the grid is capped at
`128 × 1024` threads and the kernel does not stride, so the last element is
inspected by no thread.  The exact-count claim (and the spec wording
"grid sized to cover the buffer exactly") is violated. -/
theorem countCheck_misses_nan_beyond_grid :
    CudaTensorCheckNanInf 0 "op" "x" (.fp32 tailNanBuf)
      = { ret := false, launched := true, counts := some (0, 0),
          summary := none, fatal := false } ∧
    131072 < tailNanBuf.length ∧
    (fpGet tailNanBuf 131072).isnan = true := by
  refine ⟨?_, by rw [tailNanBuf_length]; omega, ?_⟩
  · simp [CudaTensorCheckNanInf, countNanInfNumKernel_tailNanBuf,
      countCheckFinish]
  · rw [fpGet, tailNanBuf,
      List.getD_append_right _ _ _ _ (List.length_replicate _ _).le,
      List.length_replicate]
    rfl

/-! ### Claims C5 and C6: outcomes of the advisory count check -/

lemma countCheckFinish_spec (devId : Int) (opType varName : String)
    (len : Nat) (nc : Nat × Nat) :
    (countCheckFinish devId opType varName len nc).counts
        = some (nc.1, nc.2) ∧
    ((countCheckFinish devId opType varName len nc).ret = true ↔
      0 < nc.1 ∨ 0 < nc.2) ∧
    ((countCheckFinish devId opType varName len nc).ret = true →
      (countCheckFinish devId opType varName len nc).summary
        = some ⟨devId, opType, varName, nc.1, nc.2, len⟩) ∧
    ((countCheckFinish devId opType varName len nc).ret = false →
      (countCheckFinish devId opType varName len nc).summary = none) ∧
    (countCheckFinish devId opType varName len nc).fatal = false := by
  unfold countCheckFinish
  by_cases h : 0 < nc.1 ∨ 0 < nc.2 <;> simp [h]

/-- Claim C6: for a supported element type, `CudaTensorCheckNanInf` returns
`true` iff one of the two copied-back counters is nonzero; when it returns
`true` it prints the summary line (device id, operator, variable, counts,
buffer length) and when it returns `false` it prints nothing; in either
case it does not abort the process. -/
theorem cudaTensorCheckNanInf_advisory (devId : Int)
    (opType varName : String) (t : TensorData)
    (h : t.supported = true) :
    ∃ n i,
      (CudaTensorCheckNanInf devId opType varName t).counts = some (n, i) ∧
      ((CudaTensorCheckNanInf devId opType varName t).ret = true ↔
        0 < n ∨ 0 < i) ∧
      ((CudaTensorCheckNanInf devId opType varName t).ret = true →
        (CudaTensorCheckNanInf devId opType varName t).summary
          = some ⟨devId, opType, varName, n, i, t.numel⟩) ∧
      ((CudaTensorCheckNanInf devId opType varName t).ret = false →
        (CudaTensorCheckNanInf devId opType varName t).summary = none) ∧
      (CudaTensorCheckNanInf devId opType varName t).fatal = false := by
  cases t
  case other n => simp [TensorData.supported] at h
  case fp32 data =>
    exact ⟨(CountNanInfNumKernel FPVal.isnan FPVal.isinf (.finite 0) data).1,
           (CountNanInfNumKernel FPVal.isnan FPVal.isinf (.finite 0) data).2,
           countCheckFinish_spec devId opType varName data.length _⟩
  case int64 data =>
    exact ⟨(CountNanInfNumKernel int64Isnan int64Isinf 0 data).1,
           (CountNanInfNumKernel int64Isnan int64Isinf 0 data).2,
           countCheckFinish_spec devId opType varName data.length _⟩
  case fp64 data =>
    exact ⟨(CountNanInfNumKernel FPVal.isnan FPVal.isinf (.finite 0) data).1,
           (CountNanInfNumKernel FPVal.isnan FPVal.isinf (.finite 0) data).2,
           countCheckFinish_spec devId opType varName data.length _⟩

/-- Witness for C6 at the concrete FP32 buffer `[1.0, NaN]`. -/
theorem cudaTensorCheckNanInf_advisory_witness :
    ∃ n i,
      (CudaTensorCheckNanInf 0 "add" "y"
          (.fp32 [.finite 1, .nan])).counts = some (n, i) ∧
      ((CudaTensorCheckNanInf 0 "add" "y"
          (.fp32 [.finite 1, .nan])).ret = true ↔ 0 < n ∨ 0 < i) ∧
      ((CudaTensorCheckNanInf 0 "add" "y"
          (.fp32 [.finite 1, .nan])).ret = true →
        (CudaTensorCheckNanInf 0 "add" "y"
          (.fp32 [.finite 1, .nan])).summary
          = some ⟨0, "add", "y", n, i,
              (TensorData.fp32 [.finite 1, .nan]).numel⟩) ∧
      ((CudaTensorCheckNanInf 0 "add" "y"
          (.fp32 [.finite 1, .nan])).ret = false →
        (CudaTensorCheckNanInf 0 "add" "y"
          (.fp32 [.finite 1, .nan])).summary = none) ∧
      (CudaTensorCheckNanInf 0 "add" "y"
          (.fp32 [.finite 1, .nan])).fatal = false :=
  cudaTensorCheckNanInf_advisory 0 "add" "y" (.fp32 [.finite 1, .nan]) rfl

/-- Claim C5 fails on the code: for an unsupported element type the
orchestrator does skip the kernel, but its return value is the plain
`false` of a clean verdict — not a distinct "check not applicable"
signal.  At a concrete unsupported 4-element tensor the returned value
equals the one returned for a clean FP32 tensor. -/
theorem unsupported_type_not_distinct_from_clean :
    (CudaTensorCheckNanInf 0 "op" "x" (.other 4)).launched = false ∧
    (CudaTensorCheckNanInf 0 "op" "x" (.other 4)).ret = false ∧
    (CudaTensorCheckNanInf 0 "op" "x" (.fp32 [.finite 1])).ret = false ∧
    (CudaTensorCheckNanInf 0 "op" "x" (.other 4)).ret
      = (CudaTensorCheckNanInf 0 "op" "x" (.fp32 [.finite 1])).ret := by
  decide

/-- Claim C5 amended: for an unsupported element type the orchestrator
attempts no kernel and returns `false` — the same value as a clean
verdict, with nothing printed and no error raised. -/
theorem unsupported_type_returns_false (devId : Int)
    (opType varName : String) (t : TensorData)
    (h : t.supported = false) :
    CudaTensorCheckNanInf devId opType varName t =
      { ret := false, launched := false, counts := none, summary := none,
        fatal := false } := by
  cases t
  case fp32 data => simp [TensorData.supported] at h
  case int64 data => simp [TensorData.supported] at h
  case fp64 data => simp [TensorData.supported] at h
  case other n => rfl

/-- Witness for the amended C5 at a concrete unsupported tensor. -/
theorem unsupported_type_returns_false_witness :
    CudaTensorCheckNanInf 0 "op" "x" (.other 4) =
      { ret := false, launched := false, counts := none, summary := none,
        fatal := false } :=
  unsupported_type_returns_false 0 "op" "x" (.other 4) rfl

/-! ### Claim C7: the out-of-range device index error -/

/-- A label-cache table for exactly two visible devices. -/
def twoDevCache : LabelCache := ⟨[[], []], 0⟩

/-- Claim C7 fails on the code: the `OutOfRange` message contains only the
valid bound, never the invalid index.  With 2 visible devices, requesting
device 5 yields exactly `"GPU dev_id must >=0 and < dev_count=2"`; the
message contains no character `5`, and requesting device 7 yields the very
same error, so the invalid index cannot be recovered from it. -/
theorem range_error_omits_invalid_index :
    tensorCheckerApply twoDevCache 5 "op" "x" []
      = .error "GPU dev_id must >=0 and < dev_count=2" ∧
    tensorCheckerApply twoDevCache 7 "op" "x" []
      = tensorCheckerApply twoDevCache 5 "op" "x" [] ∧
    "GPU dev_id must >=0 and < dev_count=2".toList.contains '5' = false := by
  refine ⟨by rfl, by rfl, by decide⟩

/-- Claim C7 amended: a device index outside `[0, device_count)` makes the
boolean-check path fail with an `OutOfRange` error naming the valid bound
(the invalid index itself is not part of the message). -/
theorem tensorCheckerApply_range_error (st : LabelCache) (devId : Int)
    (opType varName : String) (buf : List FPVal)
    (h : ¬(0 ≤ devId ∧ devId < (st.tables.length : Int))) :
    tensorCheckerApply st devId opType varName buf =
      .error ("GPU dev_id must >=0 and < dev_count="
        ++ toString st.tables.length) := by
  unfold tensorCheckerApply
  rw [if_neg h]

/-- Witness for the amended C7: device index 5 with 2 visible devices. -/
theorem tensorCheckerApply_range_error_witness :
    tensorCheckerApply twoDevCache 5 "op" "x" [] =
      .error ("GPU dev_id must >=0 and < dev_count="
        ++ toString twoDevCache.tables.length) :=
  tensorCheckerApply_range_error twoDevCache 5 "op" "x" [] (by decide)

/-! ### Claim C4: the label cache uploads each label at most once -/

lemma lookupLabel_cons_self (label : String) (p : Nat)
    (tbl : List (String × Nat)) :
    lookupLabel ((label, p) :: tbl) label = some p := by
  simp [lookupLabel]

lemma getD_set_self {α : Type} (l : List α) (i : Nat) (a d : α)
    (h : i < l.length) : (l.set i a).getD i d = a := by
  rw [List.getD_eq_getElem _ _ (by simpa using h)]
  simp

lemma getOrCreateLabelPtr_found (st : LabelCache) (dev : Nat)
    (label : String) (p : Nat)
    (h : lookupLabel (st.tables.getD dev []) label = some p) :
    getOrCreateLabelPtr st dev label = (st, .get, p) := by
  unfold getOrCreateLabelPtr
  rw [h]

lemma getOrCreateLabelPtr_missing (st : LabelCache) (dev : Nat)
    (label : String)
    (h : lookupLabel (st.tables.getD dev []) label = none) :
    getOrCreateLabelPtr st dev label =
      (⟨st.tables.set dev ((label, st.nextPtr) :: st.tables.getD dev []),
        st.nextPtr + 1⟩,
       .insert, st.nextPtr) := by
  unfold getOrCreateLabelPtr
  rw [h]

lemma getOrCreateLabelPtr_tables_length (st : LabelCache) (dev : Nat)
    (label : String) :
    (getOrCreateLabelPtr st dev label).1.tables.length
      = st.tables.length := by
  unfold getOrCreateLabelPtr
  cases lookupLabel (st.tables.getD dev []) label <;> simp

/-- After any `getOrCreateLabelPtr`, the label is present in the table of
the device and maps to the returned pointer. -/
lemma getOrCreateLabelPtr_lookup (st : LabelCache) (dev : Nat)
    (label : String) (hdev : dev < st.tables.length) :
    lookupLabel ((getOrCreateLabelPtr st dev label).1.tables.getD dev [])
        label
      = some (getOrCreateLabelPtr st dev label).2.2 := by
  cases hcase : lookupLabel (st.tables.getD dev []) label with
  | some p => rw [getOrCreateLabelPtr_found st dev label p hcase]; exact hcase
  | none =>
      rw [getOrCreateLabelPtr_missing st dev label hcase]
      simp only
      rw [getD_set_self _ _ _ _ hdev, lookupLabel_cons_self]

/-- A second `getOrCreateLabelPtr` with the same device and label takes the
get branch, changes nothing, and returns the pointer stored by the
first. -/
lemma getOrCreateLabelPtr_second (st : LabelCache) (dev : Nat)
    (label : String) (hdev : dev < st.tables.length) :
    getOrCreateLabelPtr (getOrCreateLabelPtr st dev label).1 dev label
      = ((getOrCreateLabelPtr st dev label).1, .get,
         (getOrCreateLabelPtr st dev label).2.2) :=
  getOrCreateLabelPtr_found _ _ _ _
    (getOrCreateLabelPtr_lookup st dev label hdev)

lemma tensorCheckerApply_ok (st : LabelCache) (devId : Int)
    (opType varName : String) (buf : List FPVal)
    (h0 : 0 ≤ devId) (h1 : devId < (st.tables.length : Int)) :
    tensorCheckerApply st devId opType varName buf =
      .ok { cache :=
              (getOrCreateLabelPtr st devId.toNat
                (opVarLabel opType varName)).1,
            cacheOp :=
              (getOrCreateLabelPtr st devId.toNat
                (opVarLabel opType varName)).2.1,
            labelPtr :=
              (getOrCreateLabelPtr st devId.toNat
                (opVarLabel opType varName)).2.2,
            blocks := numBlocks buf.length, threads := threadsPerBlock,
            printNum := 3, reportEntered := CheckNanInfKernel buf } := by
  unfold tensorCheckerApply
  rw [if_pos ⟨h0, h1⟩]

/-- Claim C4: per device and per `(operator, variable)` pair the label is
inserted (and uploaded) at most once.  If the pair is absent the first
check inserts it; a second check on the same device with the same pair
records a get, returns the pointer cached by the first check, and leaves
the cache state unchanged. -/
theorem label_cache_insert_then_get (st : LabelCache) (devId : Int)
    (opType varName : String) (buf1 buf2 : List FPVal)
    (h0 : 0 ≤ devId) (h1 : devId < (st.tables.length : Int)) :
    ∃ out1 out2,
      tensorCheckerApply st devId opType varName buf1 = .ok out1 ∧
      tensorCheckerApply out1.cache devId opType varName buf2
        = .ok out2 ∧
      (lookupLabel (st.tables.getD devId.toNat [])
          (opVarLabel opType varName) = none →
        out1.cacheOp = .insert) ∧
      out2.cacheOp = .get ∧
      out2.labelPtr = out1.labelPtr ∧
      out2.cache = out1.cache := by
  have hdev : devId.toNat < st.tables.length := by omega
  refine ⟨_, _, tensorCheckerApply_ok st devId opType varName buf1 h0 h1,
    tensorCheckerApply_ok _ devId opType varName buf2 h0
      (by rw [getOrCreateLabelPtr_tables_length]; exact h1), ?_, ?_, ?_, ?_⟩
  · intro hnone
    rw [getOrCreateLabelPtr_missing st devId.toNat _ hnone]
  · simp only
    rw [getOrCreateLabelPtr_second st devId.toNat _ hdev]
  · simp only
    rw [getOrCreateLabelPtr_second st devId.toNat _ hdev]
  · simp only
    rw [getOrCreateLabelPtr_second st devId.toNat _ hdev]

/-- Witness for C4: one device, the pair `("mul", "y")` checked twice. -/
theorem label_cache_insert_then_get_witness :
    ∃ out1 out2,
      tensorCheckerApply ⟨[[]], 0⟩ 0 "mul" "y" [] = .ok out1 ∧
      tensorCheckerApply out1.cache 0 "mul" "y" [] = .ok out2 ∧
      (lookupLabel ((⟨[[]], 0⟩ : LabelCache).tables.getD (0 : Int).toNat [])
          (opVarLabel "mul" "y") = none →
        out1.cacheOp = .insert) ∧
      out2.cacheOp = .get ∧
      out2.labelPtr = out1.labelPtr ∧
      out2.cache = out1.cache :=
  label_cache_insert_then_get ⟨[[]], 0⟩ 0 "mul" "y" [] [] (by decide)
    (by decide)

/-! ### Claim C9: what PrintNanInfKernel prints -/

/-- Claim C9 fails on the code: in a realizable execution of the reporter
(counters zeroed first, visits serialized in ascending order) finite
(clean) values are printed too.  On the buffer `[1.0, NaN]` the finite
element at index 0 is printed (its `num_count` fetch returned 0 < 3), and
on a buffer of three NaN and three infinite values one block prints six
offending values, more than the limit 3.  Nothing stronger is guaranteed
by the kernel: its two `__syncthreads;` statements are no-ops, so in other
executions even the per-class print gate can misbehave. -/
theorem printNanInfKernel_prints_finite_values :
    (PrintNanInfKernel [.finite 1, .nan] 3 0).printedIdx.contains 0
      = true ∧
    (fpGet [.finite 1, .nan] 0).isnan = false ∧
    (fpGet [.finite 1, .nan] 0).isinf = false ∧
    (PrintNanInfKernel [.nan, .nan, .nan, .posInf, .posInf, .posInf] 3
        0).printedIdx.length = 6 := by
  decide
